import Mathlib

/-
Verification of the credit-card billing-cycle reconciliation engine of a
personal household finance tracker.

Shallow embedding notes:
  - Calendar dates are modelled as absolute day numbers (days since
    1970-01-01, proleptic Gregorian).  The JavaScript constructor
    Date(year, month0, day) with 0-based month0 and free day overflow is
    modelled by jsDate: the first day of the (normalised) month plus
    (day - 1) days, exactly the native rollover semantics.  ISO date
    strings compared lexicographically in the source correspond to the
    linear order on absolute day numbers.
  - Billing-month keys of the form YYYY-MM are modelled as pairs
    (year, month) of integers with month 1-based.
  - The Record<string, CardSetting> maps of the source are modelled as
    association lists looked up by first match; the object-spread update
    is modelled by prepending, which has the same lookup semantics.
  - parseFloat of the entered statement total is modelled as an
    Option Int (none for NaN); monetary values are integers as the data
    model specifies integer currency units.
-/

namespace Finance

/-! ## Calendar model -/

def isLeap (y : Int) : Bool := (y % 4 == 0 && y % 100 != 0) || y % 400 == 0

/-- Days before 0-based month m in year y. -/
def monthOffset (y : Int) (m : Nat) : Int :=
  let l : Int := if isLeap y then 1 else 0
  match m with
  | 0 => 0
  | 1 => 31
  | 2 => 59 + l
  | 3 => 90 + l
  | 4 => 120 + l
  | 5 => 151 + l
  | 6 => 181 + l
  | 7 => 212 + l
  | 8 => 243 + l
  | 9 => 273 + l
  | 10 => 304 + l
  | _ => 334 + l

/-- Number of leap years strictly before year y (proleptic Gregorian). -/
def leapsBefore (y : Int) : Int :=
  (y - 1).fdiv 4 - (y - 1).fdiv 100 + (y - 1).fdiv 400

/-- Absolute day number of January 1st of year y (1970-01-01 is day 0). -/
def daysToYear (y : Int) : Int :=
  365 * (y - 1970) + (leapsBefore y - leapsBefore 1970)

/-- Absolute day number of the first day of month t, where t counts total
months, i.e. t = 12 * year + month0 with month0 0-based; t is normalised
by euclidean division, matching the month normalisation of the JavaScript
Date constructor. -/
def firstOfMonth (t : Int) : Int :=
  let y := t.fdiv 12
  let m := (t - 12 * y).toNat
  daysToYear y + monthOffset y m

/-- The JavaScript constructor Date(y, m, d): 0-based month m (any
integer, normalised into the year) and day d with native overflow
rollover. -/
def jsDate (y m d : Int) : Int := firstOfMonth (12 * y + m) + (d - 1)

/-- Convenience: the absolute day number of the ISO calendar date
y-m-d with 1-based month. -/
def isoDate (y m d : Int) : Int := jsDate y (m - 1) d

/-! ## Data model (src/types.ts) -/

inductive PaymentMethod
  | cash
  | creditCard
deriving DecidableEq, Repr

/-- A billing-month key YYYY-MM, as (year, month) with month 1-based. -/
abbrev BillingMonth := Int × Int

structure Transaction where
  id : String
  date : Int
  amount : Int
  paymentMethod : PaymentMethod
  cardBank : String
  category : String
  description : String
  isReconciled : Bool
  reconciledDate : Option String
  isRecurring : Bool
  isInstallment : Bool
  recurringGroupId : Option String
deriving DecidableEq, Repr

structure CardSetting where
  statementDay : Nat
  isNextMonth : Bool
  issuedMonths : List BillingMonth
  statementAmounts : List (BillingMonth × Int)
deriving DecidableEq, Repr

abbrev CardSettings := List (String × CardSetting)

def lookupSetting (cs : CardSettings) (bank : String) : Option CardSetting :=
  (cs.find? (fun p => decide (p.1 = bank))).map (fun p => p.2)

/-- Object-spread update of the settings record: prepend, so that the
first-match lookup sees the new value. -/
def setSetting (cs : CardSettings) (bank : String) (s : CardSetting) : CardSettings :=
  (bank, s) :: cs

def lookupAmount (l : List (BillingMonth × Int)) (k : BillingMonth) : Option Int :=
  (l.find? (fun p => decide (p.1 = k))).map (fun p => p.2)

/-- The default setting object constructed by handleToggleIssued when the
bank has none: TS literal with statementDay 15 and the other fields
absent (falsy / empty). -/
def defaultSetting : CardSetting :=
  { statementDay := 15, isNextMonth := false, issuedMonths := [], statementAmounts := [] }

structure CycleRange where
  cycleStart : Int
  cycleEnd : Int
deriving DecidableEq, Repr

/-! ## Cycle calculator (src/components/Reconciliation.tsx lines 44-56) -/

def getCycleRange (cs : CardSettings) (bank : String) (ym : BillingMonth) : Option CycleRange :=
  match lookupSetting cs bank with
  | none => none
  | some setting =>
    if setting.statementDay = 0 then none
    else
      some { cycleStart := jsDate ym.1 (ym.2 - 2) ((setting.statementDay : Int) + 1),
             cycleEnd := jsDate ym.1 (ym.2 - 1) (setting.statementDay : Int) }

/-- Successor of a billing-month key YYYY-MM. -/
def nextBillingMonth (ym : BillingMonth) : BillingMonth :=
  if ym.2 = 12 then (ym.1 + 1, 1) else (ym.1, ym.2 + 1)

/-! ## Stable comparator sort (the source's Array.prototype.sort calls) -/

def insertTx (le : Transaction → Transaction → Bool) (x : Transaction) :
    List Transaction → List Transaction
  | [] => [x]
  | y :: ys => if le x y then x :: y :: ys else y :: insertTx le x ys

def sortTx (le : Transaction → Transaction → Bool) : List Transaction → List Transaction
  | [] => []
  | x :: xs => insertTx le x (sortTx le xs)

/-- Comparator (a, b) => b.date.localeCompare(a.date): descending by date. -/
def byDateDesc (a b : Transaction) : Bool := decide (b.date ≤ a.date)

/-- Comparator (a, b) => a.date.localeCompare(b.date): ascending by date. -/
def byDateAsc (a b : Transaction) : Bool := decide (a.date ≤ b.date)

theorem mem_insertTx {le : Transaction → Transaction → Bool} {x a : Transaction}
    {l : List Transaction} : a ∈ insertTx le x l ↔ a = x ∨ a ∈ l := by
  induction l with
  | nil => simp [insertTx]
  | cons y ys ih =>
    by_cases h : le x y
    · simp [insertTx, h]
    · simp only [insertTx, if_neg h, List.mem_cons, ih]
      tauto

theorem mem_sortTx {le : Transaction → Transaction → Bool} {a : Transaction}
    {l : List Transaction} : a ∈ sortTx le l ↔ a ∈ l := by
  induction l with
  | nil => simp [sortTx]
  | cons x xs ih => simp [sortTx, mem_insertTx, ih]

theorem sumAmounts_insertTx (le : Transaction → Transaction → Bool) (x : Transaction)
    (l : List Transaction) :
    ((insertTx le x l).map (fun t => t.amount)).sum
      = x.amount + ((l.map (fun t => t.amount)).sum) := by
  induction l with
  | nil => simp [insertTx]
  | cons y ys ih =>
    by_cases h : le x y
    · simp [insertTx, h]
    · simp only [insertTx, if_neg h, List.map_cons, List.sum_cons, ih]
      ring

theorem sumAmounts_sortTx (le : Transaction → Transaction → Bool) (l : List Transaction) :
    ((sortTx le l).map (fun t => t.amount)).sum = (l.map (fun t => t.amount)).sum := by
  induction l with
  | nil => rfl
  | cons x xs ih => simp [sortTx, sumAmounts_insertTx, ih]

/-! ## Reconciliation aggregator (src/components/Reconciliation.tsx lines 102-141) -/

/-- Filter body of candidateTransactions (lines 106-113). -/
def candidatePred (range : Option CycleRange) (bank : String) (t : Transaction) : Bool :=
  if t.cardBank != bank || t.isReconciled then false
  else
    match range with
    | none => true
    | some r => decide (t.date ≤ r.cycleEnd)

def candidateTransactions (cs : CardSettings) (txs : List Transaction) (bank : String)
    (ym : BillingMonth) : List Transaction :=
  if bank = "-" then []
  else sortTx byDateDesc (txs.filter (candidatePred (getCycleRange cs bank ym) bank))

def unreconciledSumInCycle (cs : CardSettings) (txs : List Transaction) (bank : String)
    (ym : BillingMonth) : Int :=
  ((candidateTransactions cs txs bank ym).map (fun t => t.amount)).sum

/-- Line 120: discrepancy = targetTotal - unreconciledSumInCycle, with
targetTotal = parseFloat(statementTotal) or 0. -/
def discrepancy (cs : CardSettings) (txs : List Transaction) (bank : String)
    (ym : BillingMonth) (entered : Option Int) : Int :=
  entered.getD 0 - unreconciledSumInCycle cs txs bank ym

def amountOf (cs : CardSettings) (bank : String) (ym : BillingMonth) : Option Int :=
  (lookupSetting cs bank).bind (fun s => lookupAmount s.statementAmounts ym)

/-- Lines 127-141: saved statement amount takes priority, else the sum of
reconciled transactions of the bank strictly inside the cycle range. -/
def reconciledTotalInCycle (cs : CardSettings) (txs : List Transaction) (bank : String)
    (ym : BillingMonth) : Int :=
  if bank = "-" then 0
  else
    match amountOf cs bank ym with
    | some a => a
    | none =>
      match getCycleRange cs bank ym with
      | none => 0
      | some r =>
        ((txs.filter (fun t => t.cardBank == bank && t.isReconciled
            && decide (r.cycleStart ≤ t.date) && decide (t.date ≤ r.cycleEnd))).map
          (fun t => t.amount)).sum

/-! ## Transaction classifier (src/components/Reconciliation.tsx lines 159-189) -/

inductive DetailType
  | current
  | future
  | reconciled
deriving DecidableEq, Repr

/-- Filter body of getDetailTransactions (lines 161-188). -/
def detailPred (range : Option CycleRange) (bank : String) (ty : DetailType)
    (t : Transaction) : Bool :=
  if t.cardBank != bank then false
  else
    match ty with
    | .reconciled =>
      match range with
      | none => t.isReconciled
      | some r => t.isReconciled && decide (r.cycleStart ≤ t.date)
          && decide (t.date ≤ r.cycleEnd)
    | .current =>
      if t.isReconciled then false
      else
        match range with
        | none => true
        | some r => decide (t.date ≤ r.cycleEnd)
    | .future =>
      if t.isReconciled then false
      else
        match range with
        | none => false
        | some r => decide (r.cycleEnd < t.date)

def getDetailTransactions (cs : CardSettings) (txs : List Transaction) (bank : String)
    (ym : BillingMonth) (ty : DetailType) : List Transaction :=
  let l := txs.filter (detailPred (getCycleRange cs bank ym) bank ty)
  match ty with
  | .future => sortTx byDateAsc l
  | _ => sortTx byDateDesc l

/-- Number of classifier buckets a transaction falls into, where the
EXCLUDED bucket is the classifier's first check cardBank =/= bank. -/
def inBucketCount (range : Option CycleRange) (bank : String) (t : Transaction) : Nat :=
  (if detailPred range bank .current t then 1 else 0)
    + (if detailPred range bank .future t then 1 else 0)
    + (if detailPred range bank .reconciled t then 1 else 0)
    + (if t.cardBank != bank then 1 else 0)

/-- Shared concrete-transaction builder for examples. -/
def mkTx (tid : String) (date amount : Int) (pm : PaymentMethod) (bank : String)
    (rec : Bool) : Transaction :=
  { id := tid, date := date, amount := amount, paymentMethod := pm, cardBank := bank,
    category := "食", description := "", isReconciled := rec, reconciledDate := none,
    isRecurring := false, isInstallment := false, recurringGroupId := none }

/-! ## Statement state store (src/components/Reconciliation.tsx lines 58-95) -/

def issuedOf (cs : CardSettings) (bank : String) : List BillingMonth :=
  ((lookupSetting cs bank).map (fun s => s.issuedMonths)).getD []

/-- handleToggleIssued (lines 62-95): unchecking removes the month from
issuedMonths and keeps the recorded amounts; checking appends the month
and, when the entered statement total parses as a number, snapshots it
into statementAmounts. -/
def handleToggleIssued (cs : CardSettings) (bank : String) (ym : BillingMonth)
    (entered : Option Int) : CardSettings :=
  if bank = "-" then cs
  else
    let current := (lookupSetting cs bank).getD defaultSetting
    let issued := current.issuedMonths
    if ym ∈ issued then
      setSetting cs bank
        { current with issuedMonths := issued.filter (fun m => decide (m ≠ ym)) }
    else
      let newAmounts :=
        match entered with
        | some x => (ym, x) :: current.statementAmounts
        | none => current.statementAmounts
      setSetting cs bank
        { current with issuedMonths := issued ++ [ym], statementAmounts := newAmounts }

/-! ## toggleReconcile (src/App.tsx lines 155-165) -/

def toggleReconcile (now : String) (tid : String) (txs : List Transaction) :
    List Transaction :=
  txs.map fun t =>
    if t.id ≠ tid then t
    else
      { t with isReconciled := !t.isReconciled,
               reconciledDate := if !t.isReconciled then some now else none }

/-! ## Installment creation (src/components/TransactionList.tsx lines 151-166) -/

/-- The per-period amounts generated by handleSubmit for an installment:
Math.floor of the total over the count, with the JavaScript remainder
added to the first period.  Int.fdiv is the floor division of Math.floor
and Int.tmod the truncation-signed remainder of the JavaScript %
operator. -/
def installmentAmounts (totalAmount : Int) (count : Nat) : List Int :=
  if count > 1 then
    let perPeriod := totalAmount.fdiv count
    let remainder := totalAmount.tmod count
    (List.range count).map (fun i => if i = 0 then perPeriod + remainder else perPeriod)
  else [totalAmount]

/-! ## Dashboard cycle variant (src/unnamed/part_005 lines 67-100) -/

/-- The getCycleRange of the dashboard revision: when statementDay is
below 15 the billing month is shifted one month forward before the same
start and end arithmetic. -/
def getCycleRangeDashboard (cs : CardSettings) (bank : String) (ym : BillingMonth) :
    Option CycleRange :=
  match lookupSetting cs bank with
  | none => none
  | some setting =>
    if setting.statementDay = 0 then none
    else
      let target : BillingMonth :=
        if setting.statementDay < 15 then
          if ym.2 + 1 > 12 then (ym.1 + 1, 1) else (ym.1, ym.2 + 1)
        else ym
      some { cycleStart := jsDate target.1 (target.2 - 2) ((setting.statementDay : Int) + 1),
             cycleEnd := jsDate target.1 (target.2 - 1) (setting.statementDay : Int) }

/-! ## Budget manager card totals
(src/components/Reconciliation.tsx lines 1736-1780) -/

/-- The forEach body of the budget manager's cardTotals: the sum of the
bank's reconciled credit-card transactions inside the cycle from the
previous month's statementDay + 1 to the selected month's statementDay,
or 0 when no statement day is configured. -/
def cardTotalForBank (cs : CardSettings) (txs : List Transaction) (ym : BillingMonth)
    (bank : String) : Int :=
  let statementDay := ((lookupSetting cs bank).map (fun s => s.statementDay)).getD 0
  if statementDay > 0 then
    let endD := jsDate ym.1 (ym.2 - 1) (statementDay : Int)
    let startD := jsDate ym.1 (ym.2 - 2) ((statementDay : Int) + 1)
    ((txs.filter (fun t => t.paymentMethod == PaymentMethod.creditCard
        && t.cardBank == bank && t.isReconciled
        && decide (startD ≤ t.date) && decide (t.date ≤ endD))).map
      (fun t => t.amount)).sum
  else 0

def cardTotals (cs : CardSettings) (txs : List Transaction) (banks : List String)
    (ym : BillingMonth) : List (String × Int) :=
  (banks.filter (fun b => b != "-" && b != "其他")).map
    (fun bank => (bank, cardTotalForBank cs txs ym bank))

/-! ## Theorems -/

theorem lookupSetting_setSetting_self (cs : CardSettings) (b : String) (s : CardSetting) :
    lookupSetting (setSetting cs b s) b = some s := by
  simp [lookupSetting, setSetting, List.find?_cons_of_pos]

/-- C3: for every card setting with a positive statementDay and every
billing month, the cycle end date of month M plus one day equals the
cycle start date of month M+1, across year boundaries, so consecutive
cycles are contiguous and non-overlapping. -/
theorem c3_cycle_contiguity (cs : CardSettings) (bank : String) (ym : BillingMonth)
    (r rn : CycleRange)
    (h : getCycleRange cs bank ym = some r)
    (hn : getCycleRange cs bank (nextBillingMonth ym) = some rn) :
    r.cycleEnd + 1 = rn.cycleStart := by
  unfold getCycleRange at h hn
  cases hl : lookupSetting cs bank with
  | none => rw [hl] at h; exact absurd h (by simp)
  | some s =>
    rw [hl] at h hn
    dsimp only at h hn
    by_cases hd : s.statementDay = 0
    · rw [if_pos hd] at h; exact absurd h (by simp)
    · rw [if_neg hd] at h hn
      obtain ⟨y, m⟩ := ym
      injection h with h; injection hn with hn
      subst h; subst hn
      by_cases h12 : m = 12
      · subst h12
        have hnext : nextBillingMonth (y, 12) = (y + 1, 1) := by simp [nextBillingMonth]
        rw [hnext]
        simp only [jsDate]
        have harg : 12 * (y + 1) + ((1 : Int) - 2) = 12 * y + (12 - 1) := by ring
        rw [harg]; ring
      · have hnext : nextBillingMonth (y, m) = (y, m + 1) := by
          simp [nextBillingMonth, h12]
        rw [hnext]
        simp only [jsDate]
        have harg : 12 * y + (m + 1 - 2) = 12 * y + (m - 1) := by ring
        rw [harg]; ring

/-- Witness for C3 at a December to January boundary: bank X with
statementDay 15, billing month 2024-12 has cycle 2024-11-16 ... 2024-12-15
and billing month 2025-01 starts on 2024-12-16, exactly one day after. -/
theorem c3_witness :
    getCycleRange [("X", ⟨15, false, [], []⟩)] "X" (2024, 12)
      = some ⟨isoDate 2024 11 16, isoDate 2024 12 15⟩
    ∧ getCycleRange [("X", ⟨15, false, [], []⟩)] "X" (2025, 1)
      = some ⟨isoDate 2024 12 16, isoDate 2025 1 15⟩
    ∧ (isoDate 2024 12 15 : Int) + 1 = isoDate 2024 12 16 :=
  ⟨by decide, by decide,
   c3_cycle_contiguity [("X", ⟨15, false, [], []⟩)] "X" (2024, 12)
     ⟨isoDate 2024 11 16, isoDate 2024 12 15⟩ ⟨isoDate 2024 12 16, isoDate 2025 1 15⟩
     (by decide) (by decide)⟩

/-- C4: every transaction of the selected bank that is unreconciled and
dated on or before the cycle end date, including before the cycle start,
is classified CURRENT and appears in candidateTransactions; an
unreconciled transaction of the bank is classified FUTURE exactly when it
is dated strictly after the cycle end. -/
theorem c4_carry_forward (cs : CardSettings) (txs : List Transaction) (bank : String)
    (ym : BillingMonth) (r : CycleRange) (t : Transaction)
    (hb : bank ≠ "-") (hmem : t ∈ txs) (hbank : t.cardBank = bank)
    (hrec : t.isReconciled = false) (hr : getCycleRange cs bank ym = some r) :
    (t.date ≤ r.cycleEnd →
      t ∈ candidateTransactions cs txs bank ym
      ∧ t ∈ getDetailTransactions cs txs bank ym .current)
    ∧ (t ∈ getDetailTransactions cs txs bank ym .future ↔ r.cycleEnd < t.date) := by
  constructor
  · intro hd
    constructor
    · simp [candidateTransactions, hb, mem_sortTx, List.mem_filter, hmem,
        candidatePred, hr, hbank, hrec, hd]
    · simp [getDetailTransactions, mem_sortTx, List.mem_filter, hmem,
        detailPred, hr, hbank, hrec, hd]
  · simp [getDetailTransactions, mem_sortTx, List.mem_filter, hmem,
      detailPred, hr, hbank, hrec]

/-- Witness for C4, the scenario of the spec: bank X, statementDay 15,
billing month 2024-03 gives cycle 2024-02-16 ... 2024-03-15; an
unreconciled transaction dated 2024-02-20 is CURRENT and a candidate, one
dated 2024-03-20 is FUTURE. -/
theorem c4_witness :
    ("X" : String) ≠ "-"
    ∧ getCycleRange [("X", ⟨15, false, [], []⟩)] "X" (2024, 3)
        = some ⟨isoDate 2024 2 16, isoDate 2024 3 15⟩
    ∧ (mkTx "a" (isoDate 2024 2 20) 500 .creditCard "X" false
        ∈ candidateTransactions [("X", ⟨15, false, [], []⟩)]
          [mkTx "a" (isoDate 2024 2 20) 500 .creditCard "X" false,
           mkTx "b" (isoDate 2024 3 20) 800 .creditCard "X" false] "X" (2024, 3))
    ∧ (mkTx "b" (isoDate 2024 3 20) 800 .creditCard "X" false
        ∈ getDetailTransactions [("X", ⟨15, false, [], []⟩)]
          [mkTx "a" (isoDate 2024 2 20) 500 .creditCard "X" false,
           mkTx "b" (isoDate 2024 3 20) 800 .creditCard "X" false] "X" (2024, 3) .future) :=
  ⟨by decide, by decide,
   ((c4_carry_forward [("X", ⟨15, false, [], []⟩)]
      [mkTx "a" (isoDate 2024 2 20) 500 .creditCard "X" false,
       mkTx "b" (isoDate 2024 3 20) 800 .creditCard "X" false] "X" (2024, 3)
      ⟨isoDate 2024 2 16, isoDate 2024 3 15⟩
      (mkTx "a" (isoDate 2024 2 20) 500 .creditCard "X" false)
      (by decide) (by decide) (by decide) (by decide) (by decide)).1 (by decide)).1,
   ((c4_carry_forward [("X", ⟨15, false, [], []⟩)]
      [mkTx "a" (isoDate 2024 2 20) 500 .creditCard "X" false,
       mkTx "b" (isoDate 2024 3 20) 800 .creditCard "X" false] "X" (2024, 3)
      ⟨isoDate 2024 2 16, isoDate 2024 3 15⟩
      (mkTx "b" (isoDate 2024 3 20) 800 .creditCard "X" false)
      (by decide) (by decide) (by decide) (by decide) (by decide)).2).mpr (by decide)⟩

/-- C5 counterexample: a reconciled transaction of bank X dated 2024-03-20,
outside the strict 2024-03 cycle 2024-02-16 ... 2024-03-15, falls into
zero classifier buckets, not exactly one: it is absent from all three
detail lists although its cardBank matches the bank. -/
theorem c5_counterexample :
    inBucketCount (getCycleRange [("X", ⟨15, false, [], []⟩)] "X" (2024, 3)) "X"
        (mkTx "a" (isoDate 2024 3 20) 500 .creditCard "X" true) = 0
    ∧ (mkTx "a" (isoDate 2024 3 20) 500 .creditCard "X" true).cardBank = "X"
    ∧ getDetailTransactions [("X", ⟨15, false, [], []⟩)]
        [mkTx "a" (isoDate 2024 3 20) 500 .creditCard "X" true] "X" (2024, 3) .current = []
    ∧ getDetailTransactions [("X", ⟨15, false, [], []⟩)]
        [mkTx "a" (isoDate 2024 3 20) 500 .creditCard "X" true] "X" (2024, 3) .future = []
    ∧ getDetailTransactions [("X", ⟨15, false, [], []⟩)]
        [mkTx "a" (isoDate 2024 3 20) 500 .creditCard "X" true] "X" (2024, 3) .reconciled
        = [] := by
  decide

/-- C5 amended: the classifier assigns at most one bucket, and assigns
zero buckets exactly when the transaction belongs to the bank, is
reconciled, a cycle range exists, and its date lies strictly outside the
range; in every other case exactly one bucket is assigned. -/
theorem c5_classifier_amended (range : Option CycleRange) (bank : String)
    (t : Transaction) :
    inBucketCount range bank t ≤ 1
    ∧ (inBucketCount range bank t = 0 ↔
        t.cardBank = bank ∧ t.isReconciled = true
        ∧ ∃ r, range = some r
            ∧ (t.date < r.cycleStart ∨ r.cycleEnd < t.date)) := by
  rcases range with _ | r
  · by_cases hb : t.cardBank = bank <;> by_cases hr : t.isReconciled <;>
      simp [inBucketCount, detailPred, hb, hr]
  · by_cases hb : t.cardBank = bank <;> by_cases hr : t.isReconciled <;>
      simp [inBucketCount, detailPred, hb, hr] <;> split_ifs <;> omega

/-- Witness for C5 amended, instantiated at a concrete classifier input. -/
theorem c5_witness :
    inBucketCount (some ⟨isoDate 2024 2 16, isoDate 2024 3 15⟩) "X"
        (mkTx "a" (isoDate 2024 3 10) 500 .creditCard "X" false) ≤ 1
    ∧ (inBucketCount (some ⟨isoDate 2024 2 16, isoDate 2024 3 15⟩) "X"
          (mkTx "a" (isoDate 2024 3 10) 500 .creditCard "X" false) = 0 ↔
        (mkTx "a" (isoDate 2024 3 10) 500 .creditCard "X" false).cardBank = "X"
        ∧ (mkTx "a" (isoDate 2024 3 10) 500 .creditCard "X" false).isReconciled = true
        ∧ ∃ r, (some ⟨isoDate 2024 2 16, isoDate 2024 3 15⟩ : Option CycleRange) = some r
            ∧ ((mkTx "a" (isoDate 2024 3 10) 500 .creditCard "X" false).date < r.cycleStart
               ∨ r.cycleEnd
                 < (mkTx "a" (isoDate 2024 3 10) 500 .creditCard "X" false).date)) :=
  c5_classifier_amended (some ⟨isoDate 2024 2 16, isoDate 2024 3 15⟩) "X"
    (mkTx "a" (isoDate 2024 3 10) 500 .creditCard "X" false)

/-- C1 counterexample: with bank X, statementDay 15, a recorded statement
amount of 5000 for 2024-03, no transactions and an entered total of 5000,
the code's discrepancy is 5000 (entered minus the empty candidate sum)
while the entered total minus reconciledTotalInCycle is 0: the aggregator
subtracts the unreconciled candidate sum, not reconciledTotalInCycle. -/
theorem c1_counterexample :
    discrepancy [("X", ⟨15, false, [], [((2024, 3), 5000)]⟩)] [] "X" (2024, 3)
        (some 5000) = 5000
    ∧ reconciledTotalInCycle [("X", ⟨15, false, [], [((2024, 3), 5000)]⟩)] [] "X"
        (2024, 3) = 5000
    ∧ discrepancy [("X", ⟨15, false, [], [((2024, 3), 5000)]⟩)] [] "X" (2024, 3)
          (some 5000)
        ≠ (some (5000 : Int)).getD 0
          - reconciledTotalInCycle [("X", ⟨15, false, [], [((2024, 3), 5000)]⟩)] [] "X"
              (2024, 3) := by
  decide

/-- C1 amended: the aggregator's discrepancy equals the entered statement
total minus the sum of the unreconciled candidate transactions of the
bank dated on or before the cycle end (not minus reconciledTotalInCycle);
a discrepancy of exactly 0 with a positive entered total means that
candidate sum equals the entered total, the balanced-statement signal. -/
theorem c1_discrepancy_amended (cs : CardSettings) (txs : List Transaction)
    (bank : String) (ym : BillingMonth) (entered : Option Int) (r : CycleRange)
    (hb : bank ≠ "-") (hr : getCycleRange cs bank ym = some r) :
    discrepancy cs txs bank ym entered
      = entered.getD 0
        - ((txs.filter (fun t => t.cardBank == bank && !t.isReconciled
            && decide (t.date ≤ r.cycleEnd))).map (fun t => t.amount)).sum
    ∧ (discrepancy cs txs bank ym entered = 0 ∧ 0 < entered.getD 0 →
        ((txs.filter (fun t => t.cardBank == bank && !t.isReconciled
            && decide (t.date ≤ r.cycleEnd))).map (fun t => t.amount)).sum
          = entered.getD 0) := by
  have hpred : ∀ t : Transaction,
      candidatePred (some r) bank t
        = (t.cardBank == bank && !t.isReconciled && decide (t.date ≤ r.cycleEnd)) := by
    intro t
    cases h1 : (t.cardBank == bank) <;> cases h2 : t.isReconciled <;>
      simp [candidatePred, bne, h1, h2]
  have hmain : discrepancy cs txs bank ym entered
      = entered.getD 0
        - ((txs.filter (fun t => t.cardBank == bank && !t.isReconciled
            && decide (t.date ≤ r.cycleEnd))).map (fun t => t.amount)).sum := by
    unfold discrepancy unreconciledSumInCycle candidateTransactions
    rw [if_neg hb, hr, sumAmounts_sortTx, List.filter_congr (fun a _ => hpred a)]
  exact ⟨hmain, fun h => by rw [hmain] at h; omega⟩

/-- Witness for C1 amended: bank X, statementDay 15, one unreconciled
transaction of 300 dated 2024-03-01, entered total 300: the discrepancy
is 0 and the candidate sum equals the entered total. -/
theorem c1_witness :
    ("X" : String) ≠ "-"
    ∧ getCycleRange [("X", ⟨15, false, [], []⟩)] "X" (2024, 3)
        = some ⟨isoDate 2024 2 16, isoDate 2024 3 15⟩
    ∧ discrepancy [("X", ⟨15, false, [], []⟩)]
          [mkTx "a" (isoDate 2024 3 1) 300 .creditCard "X" false] "X" (2024, 3)
          (some 300)
        = (some (300 : Int)).getD 0
          - (([mkTx "a" (isoDate 2024 3 1) 300 .creditCard "X" false].filter
              (fun t => t.cardBank == "X" && !t.isReconciled
                && decide (t.date ≤ isoDate 2024 3 15))).map (fun t => t.amount)).sum :=
  ⟨by decide, by decide,
   (c1_discrepancy_amended [("X", ⟨15, false, [], []⟩)]
      [mkTx "a" (isoDate 2024 3 1) 300 .creditCard "X" false] "X" (2024, 3)
      (some 300) ⟨isoDate 2024 2 16, isoDate 2024 3 15⟩ (by decide) (by decide)).1⟩

theorem issuedOf_setSetting (cs : CardSettings) (b : String) (s : CardSetting) :
    issuedOf (setSetting cs b s) b = s.issuedMonths := by
  simp [issuedOf, lookupSetting_setSetting_self]

theorem amountOf_setSetting (cs : CardSettings) (b : String) (s : CardSetting)
    (m : BillingMonth) :
    amountOf (setSetting cs b s) b m = lookupAmount s.statementAmounts m := by
  simp [amountOf, lookupSetting_setSetting_self]

/-- C7: checking a month that is not issued appends it to issuedMonths
and, when the entered total parses, snapshots it into statementAmounts;
unchecking an issued month removes it while retaining every recorded
amount; and once an amount X is recorded for the month,
reconciledTotalInCycle returns X verbatim for every transaction list. -/
theorem c7_toggle_issued (cs : CardSettings) (bank : String) (ym : BillingMonth)
    (entered : Option Int) (hb : bank ≠ "-") :
    (ym ∉ issuedOf cs bank →
      issuedOf (handleToggleIssued cs bank ym entered) bank = issuedOf cs bank ++ [ym]
      ∧ ∀ x, entered = some x →
          amountOf (handleToggleIssued cs bank ym entered) bank ym = some x)
    ∧ (ym ∈ issuedOf cs bank →
      issuedOf (handleToggleIssued cs bank ym entered) bank
        = (issuedOf cs bank).filter (fun m => decide (m ≠ ym))
      ∧ ∀ m, amountOf (handleToggleIssued cs bank ym entered) bank m
          = amountOf cs bank m)
    ∧ (∀ x, amountOf cs bank ym = some x →
        ∀ txs, reconciledTotalInCycle cs txs bank ym = x) := by
  have hcur : ((lookupSetting cs bank).getD defaultSetting).issuedMonths
      = issuedOf cs bank := by
    cases h : lookupSetting cs bank <;> simp [issuedOf, h, defaultSetting]
  have hamt : ∀ m, lookupAmount
      ((lookupSetting cs bank).getD defaultSetting).statementAmounts m
      = amountOf cs bank m := by
    intro m
    cases h : lookupSetting cs bank <;> simp [amountOf, h, defaultSetting, lookupAmount]
  refine ⟨?_, ?_, ?_⟩
  · intro hnot
    constructor
    · simp only [handleToggleIssued, if_neg hb, hcur, if_neg hnot, issuedOf_setSetting]
    · intro x hx
      subst hx
      simp only [handleToggleIssued, if_neg hb, hcur, if_neg hnot, amountOf_setSetting]
      simp [lookupAmount]
  · intro hmem
    constructor
    · simp only [handleToggleIssued, if_neg hb, hcur, if_pos hmem, issuedOf_setSetting]
    · intro m
      simp only [handleToggleIssued, if_neg hb, hcur, if_pos hmem, amountOf_setSetting]
      exact hamt m
  · intro x hx txs
    simp [reconciledTotalInCycle, if_neg hb, hx]

/-- Witness for C7: toggling 2024-03 for bank X with entered total 5000
issues the month and records 5000; with that amount recorded,
reconciledTotalInCycle returns 5000 even with a reconciled transaction of
a different amount in the cycle. -/
theorem c7_witness :
    ((2024, 3) : BillingMonth) ∉ issuedOf [("X", ⟨15, false, [], []⟩)] "X"
    ∧ issuedOf (handleToggleIssued [("X", ⟨15, false, [], []⟩)] "X" (2024, 3)
        (some 5000)) "X" = [(2024, 3)]
    ∧ amountOf (handleToggleIssued [("X", ⟨15, false, [], []⟩)] "X" (2024, 3)
        (some 5000)) "X" (2024, 3) = some 5000
    ∧ reconciledTotalInCycle [("X", ⟨15, false, [], [((2024, 3), 5000)]⟩)]
        [mkTx "a" (isoDate 2024 3 1) 123 .creditCard "X" true] "X" (2024, 3) = 5000 :=
  ⟨by decide,
   by
     have h := (c7_toggle_issued [("X", ⟨15, false, [], []⟩)] "X" (2024, 3)
       (some 5000) (by decide)).1 (by decide)
     simpa [issuedOf] using h.1,
   ((c7_toggle_issued [("X", ⟨15, false, [], []⟩)] "X" (2024, 3)
       (some 5000) (by decide)).1 (by decide)).2 5000 rfl,
   (c7_toggle_issued [("X", ⟨15, false, [], [((2024, 3), 5000)]⟩)] "X" (2024, 3)
       (some 5000) (by decide)).2.2 5000 (by decide)
       [mkTx "a" (isoDate 2024 3 1) 123 .creditCard "X" true]⟩

/-- C6 counterexample: a transaction that is initially reconciled with
reconciledDate 2024-01-01 and is toggled twice (at times t1 and t2) ends
reconciled again but with reconciledDate t2, not its original value. -/
theorem c6_counterexample :
    ((toggleReconcile "t2" "a" (toggleReconcile "t1" "a"
        [{ mkTx "a" 0 100 .creditCard "X" true with
             reconciledDate := some "2024-01-01" }])).map (fun t => t.reconciledDate))
      = [some "t2"]
    ∧ ((toggleReconcile "t2" "a" (toggleReconcile "t1" "a"
        [{ mkTx "a" 0 100 .creditCard "X" true with
             reconciledDate := some "2024-01-01" }])).map (fun t => t.reconciledDate))
      ≠ [some "2024-01-01"] := by
  decide

/-- C6 amended: toggling twice always restores isReconciled, and the
final state is the original list except that the targeted transaction's
reconciledDate becomes the second toggle's timestamp when it was
initially reconciled and none when it was initially unreconciled; so
reconciledDate is restored exactly for transactions that were
unreconciled with no reconciledDate set. -/
theorem c6_toggle_amended (txs : List Transaction) (tid now1 now2 : String) :
    toggleReconcile now2 tid (toggleReconcile now1 tid txs)
      = txs.map (fun t =>
          if t.id = tid then
            { t with reconciledDate := if t.isReconciled then some now2 else none }
          else t)
    ∧ (toggleReconcile now2 tid (toggleReconcile now1 tid txs)).map
        (fun t => t.isReconciled) = txs.map (fun t => t.isReconciled) := by
  have hpt : ∀ t : Transaction,
      (fun u : Transaction =>
        if u.id ≠ tid then u
        else { u with isReconciled := !u.isReconciled,
                      reconciledDate := if !u.isReconciled then some now2 else none })
        ((fun u : Transaction =>
          if u.id ≠ tid then u
          else { u with isReconciled := !u.isReconciled,
                        reconciledDate := if !u.isReconciled then some now1 else none }) t)
      = (fun u : Transaction =>
          if u.id = tid then
            { u with reconciledDate := if u.isReconciled then some now2 else none }
          else u) t := by
    intro t
    obtain ⟨i, dt, am, pm, cb, ct, ds, rec, rd, rr, ri, rg⟩ := t
    by_cases h : i = tid
    · cases rec <;> simp [h]
    · simp [h]
  have h1 : toggleReconcile now2 tid (toggleReconcile now1 tid txs)
      = txs.map (fun t =>
          if t.id = tid then
            { t with reconciledDate := if t.isReconciled then some now2 else none }
          else t) := by
    unfold toggleReconcile
    rw [List.map_map]
    exact List.map_congr_left (fun a _ => hpt a)
  refine ⟨h1, ?_⟩
  rw [h1, List.map_map]
  apply List.map_congr_left
  intro a _
  by_cases h : a.id = tid <;> simp [Function.comp, h]

/-- Projections of a transaction unaffected by the isReconciled and
reconciledDate updates are preserved by toggleReconcile. -/
theorem map_toggleReconcile {α : Type} (now tid : String) (txs : List Transaction)
    (f : Transaction → α)
    (hf : ∀ (t : Transaction) (b : Bool) (d : Option String),
      f { t with isReconciled := b, reconciledDate := d } = f t) :
    (toggleReconcile now tid txs).map f = txs.map f := by
  unfold toggleReconcile
  rw [List.map_map]
  apply List.map_congr_left
  intro a _
  by_cases h : a.id = tid
  · have hcond : ¬ a.id ≠ tid := by simp [h]
    simp only [Function.comp, if_neg hcond]
    exact hf a _ _
  · simp [Function.comp, h]

/-- Filtering by a predicate that is invariant under a map and whose
holders are fixed by the map commutes that map away. -/
theorem filter_map_eq_filter {p : Transaction → Bool} {f : Transaction → Transaction}
    (hp : ∀ t, p (f t) = p t) (hid : ∀ t, p t = true → f t = t)
    (l : List Transaction) :
    List.filter p (l.map f) = List.filter p l := by
  induction l with
  | nil => rfl
  | cons t ts ih =>
    rw [List.map_cons, List.filter_cons, List.filter_cons, hp t]
    cases h : p t
    · simp [ih]
    · simp [hid t h, ih]

/-- C9: toggleReconcile changes at most the isReconciled and
reconciledDate fields of the targeted transaction: all other fields of
every transaction are preserved, and every transaction whose id differs
from the toggled id is entirely unchanged. -/
theorem c9_toggle_frame (now tid : String) (txs : List Transaction) :
    (toggleReconcile now tid txs).map (fun t => t.id) = txs.map (fun t => t.id)
    ∧ (toggleReconcile now tid txs).map (fun t => t.date) = txs.map (fun t => t.date)
    ∧ (toggleReconcile now tid txs).map (fun t => t.cardBank)
        = txs.map (fun t => t.cardBank)
    ∧ (toggleReconcile now tid txs).map (fun t => t.amount)
        = txs.map (fun t => t.amount)
    ∧ (toggleReconcile now tid txs).map (fun t => t.paymentMethod)
        = txs.map (fun t => t.paymentMethod)
    ∧ (toggleReconcile now tid txs).map (fun t => t.category)
        = txs.map (fun t => t.category)
    ∧ (toggleReconcile now tid txs).map (fun t => t.description)
        = txs.map (fun t => t.description)
    ∧ (toggleReconcile now tid txs).map (fun t => t.isRecurring)
        = txs.map (fun t => t.isRecurring)
    ∧ (toggleReconcile now tid txs).map (fun t => t.isInstallment)
        = txs.map (fun t => t.isInstallment)
    ∧ (toggleReconcile now tid txs).map (fun t => t.recurringGroupId)
        = txs.map (fun t => t.recurringGroupId)
    ∧ (toggleReconcile now tid txs).filter (fun t => t.id != tid)
        = txs.filter (fun t => t.id != tid) := by
  refine ⟨map_toggleReconcile now tid txs _ (fun t b d => rfl),
    map_toggleReconcile now tid txs _ (fun t b d => rfl),
    map_toggleReconcile now tid txs _ (fun t b d => rfl),
    map_toggleReconcile now tid txs _ (fun t b d => rfl),
    map_toggleReconcile now tid txs _ (fun t b d => rfl),
    map_toggleReconcile now tid txs _ (fun t b d => rfl),
    map_toggleReconcile now tid txs _ (fun t b d => rfl),
    map_toggleReconcile now tid txs _ (fun t b d => rfl),
    map_toggleReconcile now tid txs _ (fun t b d => rfl),
    map_toggleReconcile now tid txs _ (fun t b d => rfl), ?_⟩
  unfold toggleReconcile
  apply filter_map_eq_filter
  · intro t
    by_cases h : t.id = tid
    · have hcond : ¬ t.id ≠ tid := by simp [h]
      simp [if_neg hcond, h]
    · simp [h]
  · intro t hpt
    have hne : t.id ≠ tid := by simpa using hpt
    simp [hne]

/-- C8: for a non-negative integer total and more than one period,
installment creation produces floor(total/n) for every period after the
first and floor(total/n) plus the whole remainder for period one, and the
period amounts sum exactly to the total. -/
theorem c8_installment (total : Int) (n : Nat) (h0 : 0 ≤ total) (h1 : 1 < n) :
    installmentAmounts total n
      = (total.fdiv n + total.tmod n) :: List.replicate (n - 1) (total.fdiv n)
    ∧ (installmentAmounts total n).sum = total := by
  have hform : installmentAmounts total n
      = (total.fdiv n + total.tmod n) :: List.replicate (n - 1) (total.fdiv n) := by
    unfold installmentAmounts
    rw [if_pos h1]
    obtain ⟨m, rfl⟩ : ∃ m, n = m + 1 := ⟨n - 1, by omega⟩
    rw [List.range_succ_eq_map, List.map_cons]
    simp only [Nat.add_sub_cancel, if_pos rfl]
    congr 1
    rw [List.map_map]
    have hconst : ∀ i ∈ List.range m,
        ((fun i => if i = 0 then total.fdiv (↑(m + 1)) + total.tmod (↑(m + 1))
            else total.fdiv (↑(m + 1))) ∘ Nat.succ) i
          = total.fdiv (↑(m + 1)) := by
      intro i _
      simp [Function.comp]
    rw [List.map_congr_left hconst, List.map_const', List.length_range]
  refine ⟨hform, ?_⟩
  rw [hform, List.sum_cons, List.sum_replicate]
  have hn : (0 : Int) ≤ (n : Int) := by positivity
  rw [Int.fdiv_eq_ediv total hn, Int.tmod_eq_emod h0 hn, nsmul_eq_mul]
  have hcast : ((n - 1 : Nat) : Int) = (n : Int) - 1 := by
    push_cast [Nat.cast_sub (by omega : 1 ≤ n)]
    ring
  rw [hcast]
  have key := Int.ediv_add_emod total (n : Int)
  linear_combination key

/-- Witness for C8: splitting 1000 into 3 periods yields the amounts
334, 333, 333 which sum to 1000. -/
theorem c8_witness :
    (0 : Int) ≤ 1000 ∧ 1 < 3
    ∧ installmentAmounts 1000 3 = [334, 333, 333]
    ∧ (installmentAmounts 1000 3).sum = 1000 :=
  ⟨by decide, by decide,
   by
     have h := (c8_installment 1000 3 (by decide) (by decide)).1
     simpa using h,
   (c8_installment 1000 3 (by decide) (by decide)).2⟩

/-- C2 at the failing input: for a card with statementDay 3 and billing
month 2024-03, the reconciliation screen's getCycleRange gives the cycle
2024-02-04 ... 2024-03-03, while the dashboard revision's getCycleRange
shifts the month because statementDay is below 15 and gives
2024-03-04 ... 2024-04-03: the consumers do not agree, contradicting the
claim that the statementDay below 15 condition never shifts the month. -/
theorem c2_cycle_divergence :
    getCycleRange [("X", ⟨3, true, [], []⟩)] "X" (2024, 3)
      = some ⟨isoDate 2024 2 4, isoDate 2024 3 3⟩
    ∧ getCycleRangeDashboard [("X", ⟨3, true, [], []⟩)] "X" (2024, 3)
      = some ⟨isoDate 2024 3 4, isoDate 2024 4 3⟩
    ∧ getCycleRangeDashboard [("X", ⟨3, true, [], []⟩)] "X" (2024, 3)
      ≠ getCycleRange [("X", ⟨3, true, [], []⟩)] "X" (2024, 3) := by
  decide

/-- C10: the budget manager's per-card amount reads only the statementDay
of the card settings (never statementAmounts); whenever the
reconciliation screen's getCycleRange yields a cycle, the budget amount
is exactly the sum of the bank's reconciled credit-card transactions
dated within that cycle; and in a state where a different statement
amount is recorded, the budget amount and reconciledTotalInCycle
disagree. -/
theorem c10_budget_card_totals :
    (∀ (cs₁ cs₂ : CardSettings) (txs : List Transaction) (ym : BillingMonth)
        (bank : String),
      (lookupSetting cs₁ bank).map (fun s => s.statementDay)
        = (lookupSetting cs₂ bank).map (fun s => s.statementDay) →
      cardTotalForBank cs₁ txs ym bank = cardTotalForBank cs₂ txs ym bank)
    ∧ (∀ (cs : CardSettings) (txs : List Transaction) (ym : BillingMonth)
        (bank : String) (r : CycleRange),
      getCycleRange cs bank ym = some r →
      cardTotalForBank cs txs ym bank
        = ((txs.filter (fun t => t.paymentMethod == PaymentMethod.creditCard
            && t.cardBank == bank && t.isReconciled
            && decide (r.cycleStart ≤ t.date) && decide (t.date ≤ r.cycleEnd))).map
          (fun t => t.amount)).sum)
    ∧ (cardTotalForBank [("X", ⟨15, false, [], [((2024, 3), 9999)]⟩)]
          [mkTx "a" (isoDate 2024 3 1) 100 .creditCard "X" true] (2024, 3) "X" = 100
        ∧ reconciledTotalInCycle [("X", ⟨15, false, [], [((2024, 3), 9999)]⟩)]
            [mkTx "a" (isoDate 2024 3 1) 100 .creditCard "X" true] "X" (2024, 3)
          = 9999
        ∧ (100 : Int) ≠ 9999) := by
  refine ⟨?_, ?_, by decide⟩
  · intro cs₁ cs₂ txs ym bank h
    simp only [cardTotalForBank]
    rw [h]
  · intro cs txs ym bank r hr
    unfold getCycleRange at hr
    cases hls : lookupSetting cs bank with
    | none => rw [hls] at hr; exact absurd hr (by simp)
    | some s =>
      rw [hls] at hr
      dsimp only at hr
      by_cases hd : s.statementDay = 0
      · rw [if_pos hd] at hr; exact absurd hr (by simp)
      · rw [if_neg hd] at hr
        injection hr with hr
        subst hr
        simp only [cardTotalForBank, hls, Option.map_some', Option.getD_some]
        rw [if_pos (by omega : s.statementDay > 0)]

/-- Witness for C10, instantiating the window equality at a concrete
state. -/
theorem c10_witness :
    getCycleRange [("X", ⟨15, false, [], [((2024, 3), 9999)]⟩)] "X" (2024, 3)
      = some ⟨isoDate 2024 2 16, isoDate 2024 3 15⟩
    ∧ cardTotalForBank [("X", ⟨15, false, [], [((2024, 3), 9999)]⟩)]
        [mkTx "a" (isoDate 2024 3 1) 100 .creditCard "X" true] (2024, 3) "X"
      = (([mkTx "a" (isoDate 2024 3 1) 100 .creditCard "X" true].filter
          (fun t => t.paymentMethod == PaymentMethod.creditCard
            && t.cardBank == "X" && t.isReconciled
            && decide (isoDate 2024 2 16 ≤ t.date)
            && decide (t.date ≤ isoDate 2024 3 15))).map (fun t => t.amount)).sum :=
  ⟨by decide,
   c10_budget_card_totals.2.1 [("X", ⟨15, false, [], [((2024, 3), 9999)]⟩)]
     [mkTx "a" (isoDate 2024 3 1) 100 .creditCard "X" true] (2024, 3) "X"
     ⟨isoDate 2024 2 16, isoDate 2024 3 15⟩ (by decide)⟩

end Finance
